import Mathlib

/-!
A shallow embedding of the device-discovery and color-streaming engine of
`src/client/context/WiFiContext.tsx`, together with theorems checking the
specification's claims about it.

Conventions of the embedding:
* Byte buffers are `List Nat` with every element < 256.
* Sockets and interval/timeout handles are identified by `Nat` ids; the
  `openSockets` field of the state records which sockets have been created
  and not yet closed, so that "releasing a transport endpoint" is visible.
* The mutable refs of the provider (`seqRef`, `lastRegionsRef`) and the
  React state cells (`devices`, `connectedDevice`, `isScanning`,
  `udpSocket`) are collected in one `WiFiState` record; each callback of
  the source becomes a state-transition function.
* The native (react-native-udp) code path is modelled; the web / mock
  branches of the source only log and are noted where they matter.
* JavaScript strings are Lean `String`s; a missing / falsy optional field
  of a parsed discovery response is modelled as `none`.
-/

namespace Ledambight

/-- `ESP_UDP_PORT` from the source: default device port. -/
def ESP_UDP_PORT : Nat := 7777

/-- The 16-bit magic constant `MAGIC = 0xabcd` of `sendRegionColors`. -/
def MAGIC : Nat := 0xabcd

/-- The protocol `version = 1` byte of `sendRegionColors`. -/
def VERSION : Nat := 1

/-- Hexadecimal-digit test, the character class of the source regex
`[a-f\d]` with the `i` (case-insensitive) flag: `0-9`, `a-f`, `A-F`. -/
def isHexDigitChar (c : Char) : Bool :=
  (48 ≤ c.toNat && c.toNat ≤ 57) ||
  (97 ≤ c.toNat && c.toNat ≤ 102) ||
  (65 ≤ c.toNat && c.toNat ≤ 70)

/-- Numeric value of one hexadecimal digit, as `parseInt(-, 16)` assigns
it (0 for characters outside the class, which the guard rules out). -/
def hexDigitVal (c : Char) : Nat :=
  if 48 ≤ c.toNat && c.toNat ≤ 57 then c.toNat - 48
  else if 97 ≤ c.toNat && c.toNat ≤ 102 then c.toNat - 87
  else if 65 ≤ c.toNat && c.toNat ≤ 70 then c.toNat - 55
  else 0

/-- The `#?` part of the source regex `^#?(..)(..)(..)$`: an optional
leading `#` is stripped (the regex can only match by consuming a leading
`#`, since `#` is not in the `[a-f\d]` class). -/
def hexBody (cs : List Char) : List Char :=
  match cs with
  | [] => []
  | c :: rest => if c = '#' then rest else c :: rest

/-- `hexToRgbBytes` of the source: match an optional `#` followed by
exactly six hex digits, grouped in pairs, and parse the three pairs; any
non-matching input yields `[0, 0, 0]`. -/
def hexToRgbBytes (hex : String) : List Nat :=
  match hexBody hex.toList with
  | [r1, r2, g1, g2, b1, b2] =>
    if isHexDigitChar r1 && isHexDigitChar r2 && isHexDigitChar g1 &&
        isHexDigitChar g2 && isHexDigitChar b1 && isHexDigitChar b2 then
      [hexDigitVal r1 * 16 + hexDigitVal r2,
       hexDigitVal g1 * 16 + hexDigitVal g2,
       hexDigitVal b1 * 16 + hexDigitVal b2]
    else [0, 0, 0]
  | _ => [0, 0, 0]

/-- Big-endian bytes of a 16-bit value, as `Buffer.writeUInt16BE` lays
them out (every value written by the source is already masked < 65536). -/
def u16be (n : Nat) : List Nat := [n / 256, n % 256]

/-- One region-color sample, the argument of `sendRegionColors`. -/
structure RegionColorsInput where
  top : String
  right : String
  bottom : String
  left : String
deriving DecidableEq, Repr

/-- `const regions = [colors.top, colors.right, colors.bottom, colors.left]`. -/
def regionsOf (c : RegionColorsInput) : List String :=
  [c.top, c.right, c.bottom, c.left]

/-- The delta-detection loop of `sendRegionColors`: indices `i` with
`regions[i] !== lastRegionsRef.current[i]`, collected in increasing
order of `i`. -/
def changedIndexes (regions last : List String) : List Nat :=
  (List.range regions.length).filter
    (fun i => regions.getD i "" ≠ last.getD i "")

/-- Header-plus-payload construction of `sendRegionColors`: 8-byte
header `[magic(2), version(1), flags(1), seq(2), ts(2)]`, then either the
delta payload `[2, count, (idx, R, G, B)...]` (when the changed count is
strictly between 0 and `regions.length`) or the full payload
`[1, 4 * (R, G, B)]`. -/
def buildFrame (regions : List String) (changed : List Nat) (seq ts : Nat) :
    List Nat :=
  if 0 < changed.length ∧ changed.length < regions.length then
    u16be MAGIC ++ [VERSION, 1] ++ u16be seq ++ u16be (ts % 65536) ++
      (2 :: changed.length ::
        changed.flatMap (fun idx => idx :: hexToRgbBytes (regions.getD idx "")))
  else
    u16be MAGIC ++ [VERSION, 0] ++ u16be seq ++ u16be (ts % 65536) ++
      (1 :: regions.flatMap hexToRgbBytes)

/-- `WiFiDevice` of the source. `rssi` is optional. -/
structure WiFiDevice where
  id : String
  name : String
  ipAddress : String
  port : Nat
  rssi : Option Int
  isConnected : Bool
deriving DecidableEq, Repr

/-- The provider's mutable state: React state cells plus the refs
`seqRef` / `lastRegionsRef`, and the discovery-scan resources.
`openSockets` records sockets created and not yet closed;
`scanInterval` is the repeating-broadcast handle of the current scan. -/
structure WiFiState where
  devices : List WiFiDevice
  connectedDevice : Option WiFiDevice
  isScanning : Bool
  udpSocket : Option Nat
  seq : Nat
  lastRegions : List String
  scanSocket : Option Nat
  scanInterval : Option Nat
  openSockets : List Nat
deriving DecidableEq, Repr

/-- Initial provider state: `seqRef = 0`,
`lastRegionsRef = ['', '', '', '']`, nothing connected or scanning. -/
def initialState : WiFiState :=
  { devices := []
    connectedDevice := none
    isScanning := false
    udpSocket := none
    seq := 0
    lastRegions := ["", "", "", ""]
    scanSocket := none
    scanInterval := none
    openSockets := [] }

/-- `sendRegionColors` as a state transition (native path, with the
send callback's effect; `ts` models `Date.now()`). Returns the new state
and the transmitted frame, if any. When no device is connected nothing
happens; when a device is connected the delta is computed and
`lastRegionsRef` committed; the sequence is bumped and a frame built and
sent only when the socket exists. -/
def sendRegionColorsStep (colors : RegionColorsInput) (ts : Nat)
    (st : WiFiState) : WiFiState × Option (List Nat) :=
  if st.connectedDevice.isSome then
    let regions := regionsOf colors
    let changed := changedIndexes regions st.lastRegions
    let st1 := { st with lastRegions := regions }
    if st.udpSocket.isSome then
      let seq := (st.seq + 1) % 65536
      ({ st1 with seq := seq }, some (buildFrame regions changed seq ts))
    else (st1, none)
  else (st, none)

/-- `connectDevice` (native path, successful bind): the new socket is
created and stored, the chosen device is marked connected and every
other registry entry marked not-connected. The previous `udpSocket`, if
any, is not closed: it merely stops being referenced. -/
def connectDevice (device : WiFiDevice) (newSock : Nat) (st : WiFiState) :
    WiFiState :=
  let updatedDevice := { device with isConnected := true }
  { st with
    udpSocket := some newSock
    openSockets := newSock :: st.openSockets
    connectedDevice := some updatedDevice
    devices := st.devices.map
      (fun d => if d.id = device.id then updatedDevice
                else { d with isConnected := false }) }

/-- `disconnectDevice`: closes the socket if one exists, marks the
connected device not-connected, clears `connectedDevice`. -/
def disconnectDevice (st : WiFiState) : WiFiState :=
  let st1 :=
    match st.udpSocket with
    | some s => { st with openSockets := st.openSockets.erase s, udpSocket := none }
    | none => st
  match st.connectedDevice with
  | some cd =>
    { st1 with
      devices := st1.devices.map
        (fun d => if d.id = cd.id then { d with isConnected := false } else d)
      connectedDevice := none }
  | none => st1

/-- `startScan` (native path, UDP available, permissions granted,
successful bind): scanning flag set, registry cleared, broadcast socket
opened and the 3-second repeating discovery broadcast scheduled. -/
def startScan (sock interval : Nat) (st : WiFiState) : WiFiState :=
  { st with
    isScanning := true
    devices := []
    scanSocket := some sock
    openSockets := sock :: st.openSockets
    scanInterval := some interval }

/-- `stopScan` of the source: its entire body is `setIsScanning(false)`. -/
def stopScan (st : WiFiState) : WiFiState :=
  { st with isScanning := false }

/-- The 30-second `setTimeout` body inside `startScan` firing:
`clearInterval(interval); socket.close(); setIsScanning(false)`. -/
def scanTimeoutFire (st : WiFiState) : WiFiState :=
  { st with
    scanInterval := none
    openSockets :=
      match st.scanSocket with
      | some s => st.openSockets.erase s
      | none => st.openSockets
    scanSocket := none
    isScanning := false }

/-- A parsed discovery response. A field that is absent or falsy in the
JSON (so that the source's `||` fallback fires) is modelled as `none`. -/
structure DiscoveryResponse where
  type : String
  id : Option String
  name : Option String
  port : Option Nat
  rssi : Option Int
deriving DecidableEq, Repr

/-- The `WiFiDevice` built by the `socket.on('message')` handler from an
accepted response and the sender address `rinfo.address`. -/
def mkDiscoveredDevice (resp : DiscoveryResponse) (senderAddress : String) :
    WiFiDevice :=
  { id := resp.id.getD senderAddress
    name := resp.name.getD ("ESP LED (" ++ senderAddress ++ ")")
    ipAddress := senderAddress
    port := resp.port.getD ESP_UDP_PORT
    rssi := resp.rssi
    isConnected := false }

/-- The registry update of the message handler: find the first entry
with the same `ipAddress`; if found, refresh only its `rssi`; otherwise
append the new device at the end. (The source does
`findIndex` + in-place update of that index; this recursion updates the
first match and leaves the rest untouched, which is the same thing.) -/
def upsertByAddress (newDevice : WiFiDevice) :
    List WiFiDevice → List WiFiDevice
  | [] => [newDevice]
  | d :: rest =>
    if d.ipAddress = newDevice.ipAddress then
      { d with rssi := newDevice.rssi } :: rest
    else d :: upsertByAddress newDevice rest

/-- The whole `socket.on('message')` handler on the registry: a response
whose `type` discriminator is not `ESP_LED_DEVICE` is dropped; an
accepted one is upserted keyed by sender address. -/
def handleDiscoveryMessage (resp : DiscoveryResponse) (senderAddress : String)
    (devices : List WiFiDevice) : List WiFiDevice :=
  if resp.type = "ESP_LED_DEVICE" then
    upsertByAddress (mkDiscoveredDevice resp senderAddress) devices
  else devices

/-- `sendColor` packet construction: the legacy 4-byte
`[0x00, R, G, B]` single-color command. -/
def sendColorPacket (color : String) : List Nat :=
  let rgb := hexToRgbBytes color
  [0, rgb.getD 0 0, rgb.getD 1 0, rgb.getD 2 0]

/-- The per-frame sequence update of `sendRegionColors`:
`seqRef.current = (seqRef.current + 1) & 0xffff`. -/
def seqStep (s : Nat) : Nat := (s + 1) % 65536

/-- Spec-side description of a well-formed hex color string, written
from the claim's words for comparison with the source's
`hexToRgbBytes`: an optional `#` followed by exactly six hexadecimal
digits. -/
def specHexColorFormat (s : String) : Prop :=
  ∃ digits : List Char, digits.length = 6 ∧
    (∀ c ∈ digits, isHexDigitChar c = true) ∧
    (s.toList = digits ∨ s.toList = '#' :: digits)

/-- A concrete discovered device, for witnesses. -/
def devA : WiFiDevice :=
  { id := "dev-a", name := "ESP A", ipAddress := "192.168.1.50"
    port := 7777, rssi := some (-40), isConnected := false }

/-- A second concrete device at a different address, for witnesses. -/
def devB : WiFiDevice :=
  { id := "dev-b", name := "ESP B", ipAddress := "192.168.1.51"
    port := 7777, rssi := some (-60), isConnected := false }

/-- A concrete state: registry holding both devices, then connected to
`devA` over socket 0. -/
def stConnA : WiFiState :=
  connectDevice devA 0 { initialState with devices := [devA, devB] }

/-- `stConnA` with its socket gone (e.g. the send path's
`if (!udpSocket)` guard taken), for the C8 witness. -/
def stConnANoSocket : WiFiState := { stConnA with udpSocket := none }

/-- A concrete uniform region sample. -/
def colorsAll102030 : RegionColorsInput :=
  { top := "102030", right := "102030", bottom := "102030", left := "102030" }

/-- The same sample with only `right` changed to white. -/
def colorsRightWhite : RegionColorsInput :=
  { top := "102030", right := "ffffff", bottom := "102030", left := "102030" }

/-- The reconnect scenario: connect `devA`, stream one uniform sample,
then connect `devB` on a fresh socket. -/
def reconnectState : WiFiState :=
  connectDevice devB 1
    (sendRegionColorsStep colorsAll102030 0 stConnA).1

/-- A concrete accepted discovery response, for witnesses. -/
def respFromA : DiscoveryResponse :=
  { type := "ESP_LED_DEVICE", id := none, name := none, port := none
    rssi := some (-50) }

/-! ## Helper lemmas about the codec -/

lemma hexDigitVal_lt (c : Char) : hexDigitVal c < 16 := by
  unfold hexDigitVal
  repeat' split
  all_goals simp only [Bool.and_eq_true, decide_eq_true_eq] at *
  all_goals omega

lemma hexToRgbBytes_length (s : String) : (hexToRgbBytes s).length = 3 := by
  unfold hexToRgbBytes
  split
  · split <;> rfl
  · rfl

lemma hexToRgbBytes_lt (s : String) : ∀ x ∈ hexToRgbBytes s, x < 256 := by
  unfold hexToRgbBytes
  split
  next r1 r2 g1 g2 b1 b2 heq =>
    split
    · intro x hx
      simp only [List.mem_cons, List.not_mem_nil, or_false] at hx
      have h1 := hexDigitVal_lt r1
      have h2 := hexDigitVal_lt r2
      have h3 := hexDigitVal_lt g1
      have h4 := hexDigitVal_lt g2
      have h5 := hexDigitVal_lt b1
      have h6 := hexDigitVal_lt b2
      rcases hx with rfl | rfl | rfl <;> omega
    · intro x hx
      simp only [List.mem_cons, List.not_mem_nil, or_false] at hx
      rcases hx with rfl | rfl | rfl <;> omega
  next =>
    intro x hx
    simp only [List.mem_cons, List.not_mem_nil, or_false] at hx
    rcases hx with rfl | rfl | rfl <;> omega

lemma hexBody_cases (cs body : List Char) (h : hexBody cs = body) :
    cs = body ∨ cs = '#' :: body := by
  unfold hexBody at h
  cases cs with
  | nil => left; rw [← h]
  | cons c rest =>
    by_cases hc : c = '#'
    · subst hc
      simp at h
      right
      rw [h]
    · simp [hc] at h
      left
      rw [← h]

lemma changedIndexes_mem (regions last : List String) (i : Nat) :
    i ∈ changedIndexes regions last ↔
      i < regions.length ∧ regions.getD i "" ≠ last.getD i "" := by
  simp [changedIndexes, List.mem_filter, List.mem_range]

lemma changedIndexes_sorted (regions last : List String) :
    List.Sorted (· < ·) (changedIndexes regions last) :=
  (List.pairwise_lt_range _).sublist (List.filter_sublist _)

lemma changedIndexes_length_le (regions last : List String) :
    (changedIndexes regions last).length ≤ regions.length := by
  calc (changedIndexes regions last).length
      ≤ (List.range regions.length).length :=
        (List.filter_sublist _).length_le
    _ = regions.length := List.length_range _

lemma deltaEntries_length (regions : List String) (changed : List Nat) :
    (changed.flatMap (fun idx => idx :: hexToRgbBytes (regions.getD idx ""))).length
      = 4 * changed.length := by
  induction changed with
  | nil => rfl
  | cons a l ih =>
    simp only [List.flatMap_cons, List.length_append, List.length_cons,
      hexToRgbBytes_length, ih]
    omega

/-! ## Helper lemmas about `sendRegionColorsStep` and `buildFrame` -/

lemma sendRegionColorsStep_some (colors : RegionColorsInput) (ts : Nat)
    (st : WiFiState) (hc : st.connectedDevice.isSome)
    (hs : st.udpSocket.isSome) :
    sendRegionColorsStep colors ts st =
      ({ st with lastRegions := regionsOf colors, seq := (st.seq + 1) % 65536 },
        some (buildFrame (regionsOf colors)
          (changedIndexes (regionsOf colors) st.lastRegions)
          ((st.seq + 1) % 65536) ts)) := by
  simp [sendRegionColorsStep, hc, hs]

lemma sendRegionColorsStep_noSocket (colors : RegionColorsInput) (ts : Nat)
    (st : WiFiState) (hc : st.connectedDevice.isSome)
    (hs : st.udpSocket = none) :
    sendRegionColorsStep colors ts st =
      ({ st with lastRegions := regionsOf colors }, none) := by
  simp [sendRegionColorsStep, hc, hs]

lemma buildFrame_delta (regions : List String) (changed : List Nat)
    (seq ts : Nat) (h : 0 < changed.length ∧ changed.length < regions.length) :
    buildFrame regions changed seq ts =
      0xab :: 0xcd :: 1 :: 1 :: (seq / 256) :: (seq % 256) ::
        ((ts % 65536) / 256) :: ((ts % 65536) % 256) ::
        2 :: changed.length ::
        changed.flatMap (fun idx => idx :: hexToRgbBytes (regions.getD idx "")) := by
  simp [buildFrame, h, u16be, MAGIC, VERSION]

lemma buildFrame_full (regions : List String) (changed : List Nat)
    (seq ts : Nat)
    (h : ¬(0 < changed.length ∧ changed.length < regions.length)) :
    buildFrame regions changed seq ts =
      0xab :: 0xcd :: 1 :: 0 :: (seq / 256) :: (seq % 256) ::
        ((ts % 65536) / 256) :: ((ts % 65536) % 256) ::
        1 :: regions.flatMap hexToRgbBytes := by
  simp [buildFrame, h, u16be, MAGIC, VERSION]

lemma seqStep_iterate (s : Nat) (hs : s < 65536) (n : Nat) :
    seqStep^[n] s = (s + n) % 65536 := by
  induction n with
  | zero => simp [Nat.mod_eq_of_lt hs]
  | succ n ih =>
    rw [Function.iterate_succ_apply', ih, seqStep]
    omega

/-! ## Helper lemmas about the discovery registry -/

lemma upsertByAddress_map_addr_of_mem (nd : WiFiDevice) (l : List WiFiDevice)
    (h : nd.ipAddress ∈ l.map WiFiDevice.ipAddress) :
    (upsertByAddress nd l).map WiFiDevice.ipAddress =
      l.map WiFiDevice.ipAddress := by
  induction l with
  | nil => simp at h
  | cons d rest ih =>
    by_cases hd : d.ipAddress = nd.ipAddress
    · simp [upsertByAddress, hd]
    · simp only [List.map_cons, List.mem_cons] at h
      rcases h with h | h
      · exact absurd h.symm hd
      · simp [upsertByAddress, hd, ih h]

lemma upsertByAddress_of_not_mem (nd : WiFiDevice) (l : List WiFiDevice)
    (h : nd.ipAddress ∉ l.map WiFiDevice.ipAddress) :
    upsertByAddress nd l = l ++ [nd] := by
  induction l with
  | nil => rfl
  | cons d rest ih =>
    simp only [List.map_cons, List.mem_cons, not_or] at h
    have hd : ¬ d.ipAddress = nd.ipAddress := fun he => h.1 he.symm
    simp [upsertByAddress, hd, ih h.2]

lemma upsertByAddress_nodup (nd : WiFiDevice) (l : List WiFiDevice)
    (hnd : (l.map WiFiDevice.ipAddress).Nodup) :
    ((upsertByAddress nd l).map WiFiDevice.ipAddress).Nodup := by
  by_cases h : nd.ipAddress ∈ l.map WiFiDevice.ipAddress
  · rw [upsertByAddress_map_addr_of_mem nd l h]
    exact hnd
  · rw [upsertByAddress_of_not_mem nd l h]
    rw [List.map_append]
    simp [List.nodup_append, hnd, List.disjoint_singleton, h]

lemma upsertByAddress_rssi_latest (nd : WiFiDevice) (l : List WiFiDevice)
    (hnd : (l.map WiFiDevice.ipAddress).Nodup) :
    ∀ d ∈ upsertByAddress nd l, d.ipAddress = nd.ipAddress →
      d.rssi = nd.rssi := by
  induction l with
  | nil =>
    intro d hd hip
    simp only [upsertByAddress, List.mem_cons, List.not_mem_nil, or_false] at hd
    subst hd
    rfl
  | cons d0 rest ih =>
    simp only [List.map_cons, List.nodup_cons] at hnd
    intro d hd hip
    by_cases h0 : d0.ipAddress = nd.ipAddress
    · simp only [upsertByAddress, if_pos h0, List.mem_cons] at hd
      rcases hd with rfl | hd
      · rfl
      · exact absurd (List.mem_map.mpr ⟨d, hd, hip.trans h0.symm⟩) hnd.1
    · simp only [upsertByAddress, if_neg h0, List.mem_cons] at hd
      rcases hd with rfl | hd
      · exact absurd hip h0
      · exact ih hnd.2 d hd hip

lemma upsertByAddress_forall₂ (nd : WiFiDevice) (l : List WiFiDevice)
    (h : nd.ipAddress ∈ l.map WiFiDevice.ipAddress) :
    List.Forall₂ (fun d d' =>
      d'.id = d.id ∧ d'.name = d.name ∧ d'.ipAddress = d.ipAddress ∧
      d'.port = d.port ∧ d'.isConnected = d.isConnected ∧
      (d.ipAddress ≠ nd.ipAddress → d'.rssi = d.rssi)) l (upsertByAddress nd l) := by
  induction l with
  | nil => simp at h
  | cons d0 rest ih =>
    by_cases h0 : d0.ipAddress = nd.ipAddress
    · simp only [upsertByAddress, if_pos h0]
      refine List.Forall₂.cons ⟨rfl, rfl, rfl, rfl, rfl, fun hne => absurd h0 hne⟩ ?_
      exact List.forall₂_same.mpr (fun x _ => ⟨rfl, rfl, rfl, rfl, rfl, fun _ => rfl⟩)
    · simp only [List.map_cons, List.mem_cons] at h
      rcases h with h | h
      · exact absurd h.symm h0
      · simp only [upsertByAddress, if_neg h0]
        exact List.Forall₂.cons ⟨rfl, rfl, rfl, rfl, rfl, fun _ => rfl⟩ (ih h)

/-! ## Claim theorems -/

/-- C1: every color-update frame produced by `sendRegionColors` is the
8-byte big-endian header — magic `0xabcd` at offset 0, version 1 at
offset 2, a flags byte at offset 3 whose bit 0 is set exactly for a
delta payload, the wrapped sequence at offset 4, the low 16 bits of the
millisecond clock at offset 6 — followed by the payload: full is command
byte 1 plus exactly 12 bytes, the RGB triples of top, right, bottom,
left in that fixed order; delta is command byte 2, a `changedCount`
byte, and `changedCount` entries of `(regionIndex, R, G, B)` with every
region index in 0..3. -/
theorem sendRegionColors_frame_format (colors : RegionColorsInput) (ts : Nat)
    (st : WiFiState) (hc : st.connectedDevice.isSome)
    (hs : st.udpSocket.isSome) :
    ∃ f flags s1 s2 t1 t2 payload,
      (sendRegionColorsStep colors ts st).2 = some f ∧
      f = 0xab :: 0xcd :: 1 :: flags :: s1 :: s2 :: t1 :: t2 :: payload ∧
      s1 * 256 + s2 = (st.seq + 1) % 65536 ∧
      t1 * 256 + t2 = ts % 65536 ∧
      ((flags = 0 ∧
          payload = 1 :: (hexToRgbBytes colors.top ++ hexToRgbBytes colors.right ++
            hexToRgbBytes colors.bottom ++ hexToRgbBytes colors.left) ∧
          payload.length = 13) ∨
        (flags = 1 ∧
          payload = 2 :: (changedIndexes (regionsOf colors) st.lastRegions).length ::
            (changedIndexes (regionsOf colors) st.lastRegions).flatMap
              (fun idx => idx :: hexToRgbBytes ((regionsOf colors).getD idx "")) ∧
          payload.length =
            2 + 4 * (changedIndexes (regionsOf colors) st.lastRegions).length ∧
          ∀ i ∈ changedIndexes (regionsOf colors) st.lastRegions, i < 4)) := by
  rw [sendRegionColorsStep_some colors ts st hc hs]
  by_cases hd : 0 < (changedIndexes (regionsOf colors) st.lastRegions).length ∧
      (changedIndexes (regionsOf colors) st.lastRegions).length < (regionsOf colors).length
  · refine ⟨_, 1, _, _, _, _, _, rfl, buildFrame_delta _ _ _ _ hd, ?_, ?_,
      Or.inr ⟨rfl, rfl, ?_, ?_⟩⟩
    · omega
    · omega
    · simp only [List.length_cons, deltaEntries_length]
      omega
    · intro i hi
      have hm := (changedIndexes_mem _ _ i).mp hi
      simpa [regionsOf] using hm.1
  · refine ⟨_, 0, _, _, _, _, _, rfl, buildFrame_full _ _ _ _ hd, ?_, ?_,
      Or.inl ⟨rfl, ?_, ?_⟩⟩
    · omega
    · omega
    · simp [regionsOf]
    · simp [regionsOf, hexToRgbBytes_length]

/-- Witness for C1: the frame-format theorem applied to a concrete
connected state and sample. -/
theorem sendRegionColors_frame_format_witness :
    stConnA.connectedDevice.isSome ∧ stConnA.udpSocket.isSome ∧
    (∃ f flags s1 s2 t1 t2 payload,
      (sendRegionColorsStep colorsAll102030 0 stConnA).2 = some f ∧
      f = 0xab :: 0xcd :: 1 :: flags :: s1 :: s2 :: t1 :: t2 :: payload ∧
      s1 * 256 + s2 = (stConnA.seq + 1) % 65536 ∧
      t1 * 256 + t2 = 0 % 65536 ∧
      ((flags = 0 ∧
          payload = 1 :: (hexToRgbBytes colorsAll102030.top ++
            hexToRgbBytes colorsAll102030.right ++
            hexToRgbBytes colorsAll102030.bottom ++
            hexToRgbBytes colorsAll102030.left) ∧
          payload.length = 13) ∨
        (flags = 1 ∧
          payload = 2 ::
            (changedIndexes (regionsOf colorsAll102030) stConnA.lastRegions).length ::
            (changedIndexes (regionsOf colorsAll102030) stConnA.lastRegions).flatMap
              (fun idx => idx :: hexToRgbBytes ((regionsOf colorsAll102030).getD idx "")) ∧
          payload.length =
            2 + 4 * (changedIndexes (regionsOf colorsAll102030) stConnA.lastRegions).length ∧
          ∀ i ∈ changedIndexes (regionsOf colorsAll102030) stConnA.lastRegions, i < 4))) :=
  ⟨rfl, rfl, sendRegionColors_frame_format colorsAll102030 0 stConnA rfl rfl⟩

/-- C2: with a connected device (and its socket), the encoder chooses
the delta payload exactly when 1, 2 or 3 regions changed; zero or four
changed regions yield a full-payload frame, and a frame is produced and
sent even when zero regions changed. -/
theorem sendRegionColors_delta_choice (colors : RegionColorsInput) (ts : Nat)
    (st : WiFiState) (hc : st.connectedDevice.isSome)
    (hs : st.udpSocket.isSome) :
    ∃ f cmd rest, (sendRegionColorsStep colors ts st).2 = some f ∧
      List.drop 8 f = cmd :: rest ∧
      (cmd = 2 ↔ 1 ≤ (changedIndexes (regionsOf colors) st.lastRegions).length ∧
        (changedIndexes (regionsOf colors) st.lastRegions).length ≤ 3) ∧
      (((changedIndexes (regionsOf colors) st.lastRegions).length = 0 ∨
        (changedIndexes (regionsOf colors) st.lastRegions).length = 4) → cmd = 1) := by
  rw [sendRegionColorsStep_some colors ts st hc hs]
  have h4 : (regionsOf colors).length = 4 := rfl
  have hle := changedIndexes_length_le (regionsOf colors) st.lastRegions
  rw [h4] at hle
  by_cases hd : 0 < (changedIndexes (regionsOf colors) st.lastRegions).length ∧
      (changedIndexes (regionsOf colors) st.lastRegions).length < (regionsOf colors).length
  · have hd4 := hd.2
    rw [h4] at hd4
    refine ⟨_, 2, (changedIndexes (regionsOf colors) st.lastRegions).length ::
        (changedIndexes (regionsOf colors) st.lastRegions).flatMap
          (fun idx => idx :: hexToRgbBytes ((regionsOf colors).getD idx "")),
      rfl, ?_, ?_, ?_⟩
    · rw [buildFrame_delta _ _ _ _ hd]
      rfl
    · constructor
      · intro
        exact ⟨hd.1, by omega⟩
      · intro
        rfl
    · intro h
      exfalso
      rcases h with h | h <;> omega
  · have hd' : (changedIndexes (regionsOf colors) st.lastRegions).length = 0 ∨
        4 ≤ (changedIndexes (regionsOf colors) st.lastRegions).length := by
      rw [h4] at hd
      omega
    refine ⟨_, 1, (regionsOf colors).flatMap hexToRgbBytes, rfl, ?_, ?_, ?_⟩
    · rw [buildFrame_full _ _ _ _ hd]
      rfl
    · constructor
      · intro h
        exact absurd h (by omega)
      · intro h
        exfalso
        omega
    · intro
      rfl

/-- Witness for C2: the delta-choice theorem applied to a concrete
connected state and sample (here zero regions change relative to the
sentinel is false, all four change, so the frame is full). -/
theorem sendRegionColors_delta_choice_witness :
    stConnA.connectedDevice.isSome ∧ stConnA.udpSocket.isSome ∧
    (∃ f cmd rest, (sendRegionColorsStep colorsAll102030 0 stConnA).2 = some f ∧
      List.drop 8 f = cmd :: rest ∧
      (cmd = 2 ↔
        1 ≤ (changedIndexes (regionsOf colorsAll102030) stConnA.lastRegions).length ∧
        (changedIndexes (regionsOf colorsAll102030) stConnA.lastRegions).length ≤ 3) ∧
      (((changedIndexes (regionsOf colorsAll102030) stConnA.lastRegions).length = 0 ∨
        (changedIndexes (regionsOf colorsAll102030) stConnA.lastRegions).length = 4) →
        cmd = 1)) :=
  ⟨rfl, rfl, sendRegionColors_delta_choice colorsAll102030 0 stConnA rfl rfl⟩

/-- C3: the delta computation yields exactly the indices whose new
color differs from the previously-sent color at the same index under
exact string equality, and lists them in canonical region order
(top = 0, right = 1, bottom = 2, left = 3, strictly increasing), for
any previously-sent 4-tuple. -/
theorem changedIndexes_exact_diffs_in_order (colors : RegionColorsInput)
    (last : List String) (hlast : last.length = 4) :
    (∀ i, i ∈ changedIndexes (regionsOf colors) last ↔
      i < 4 ∧ (regionsOf colors).getD i "" ≠ last.getD i "") ∧
    List.Sorted (· < ·) (changedIndexes (regionsOf colors) last) := by
  refine ⟨fun i => ?_, changedIndexes_sorted _ _⟩
  rw [changedIndexes_mem]
  exact Iff.rfl

/-- Witness for C3 at a concrete 4-tuple. -/
theorem changedIndexes_exact_diffs_in_order_witness :
    (["a", "b", "c", "d"] : List String).length = 4 ∧
    ((∀ i, i ∈ changedIndexes (regionsOf colorsRightWhite) ["a", "b", "c", "d"] ↔
      i < 4 ∧ (regionsOf colorsRightWhite).getD i "" ≠
        (["a", "b", "c", "d"] : List String).getD i "") ∧
    List.Sorted (· < ·)
      (changedIndexes (regionsOf colorsRightWhite) ["a", "b", "c", "d"])) :=
  ⟨rfl, changedIndexes_exact_diffs_in_order colorsRightWhite ["a", "b", "c", "d"] rfl⟩

/-- C4: within one session the sequence is monotonically increasing
modulo 2^16: the transmitted frame carries the previous counter plus
one modulo 65536, the stored counter advances identically, and 65536
consecutive increments return the counter to its start without
skipping or repeating any value out of order. -/
theorem sequence_wraparound (colors : RegionColorsInput) (ts : Nat)
    (st : WiFiState) (hc : st.connectedDevice.isSome)
    (hs : st.udpSocket.isSome) (hseq : st.seq < 65536) :
    (sendRegionColorsStep colors ts st).1.seq = seqStep st.seq ∧
    (∃ f flags s1 s2 rest,
      (sendRegionColorsStep colors ts st).2 = some f ∧
      f = 0xab :: 0xcd :: 1 :: flags :: s1 :: s2 :: rest ∧
      s1 * 256 + s2 = seqStep st.seq) ∧
    seqStep^[65536] st.seq = st.seq ∧
    (∀ i j, i < 65536 → j < 65536 →
      seqStep^[i] st.seq = seqStep^[j] st.seq → i = j) := by
  refine ⟨?_, ?_, ?_, ?_⟩
  · rw [sendRegionColorsStep_some colors ts st hc hs]
    rfl
  · rw [sendRegionColorsStep_some colors ts st hc hs]
    by_cases hd : 0 < (changedIndexes (regionsOf colors) st.lastRegions).length ∧
        (changedIndexes (regionsOf colors) st.lastRegions).length < (regionsOf colors).length
    · exact ⟨_, 1, _, _, _, rfl, buildFrame_delta _ _ _ _ hd, by unfold seqStep; omega⟩
    · exact ⟨_, 0, _, _, _, rfl, buildFrame_full _ _ _ _ hd, by unfold seqStep; omega⟩
  · rw [seqStep_iterate st.seq hseq]
    omega
  · intro i j hi hj hij
    rw [seqStep_iterate st.seq hseq, seqStep_iterate st.seq hseq] at hij
    omega

/-- Witness for C4 at a concrete connected state with counter 0. -/
theorem sequence_wraparound_witness :
    stConnA.connectedDevice.isSome ∧ stConnA.udpSocket.isSome ∧
      stConnA.seq < 65536 ∧
    ((sendRegionColorsStep colorsAll102030 0 stConnA).1.seq = seqStep stConnA.seq ∧
    (∃ f flags s1 s2 rest,
      (sendRegionColorsStep colorsAll102030 0 stConnA).2 = some f ∧
      f = 0xab :: 0xcd :: 1 :: flags :: s1 :: s2 :: rest ∧
      s1 * 256 + s2 = seqStep stConnA.seq) ∧
    seqStep^[65536] stConnA.seq = stConnA.seq ∧
    (∀ i j, i < 65536 → j < 65536 →
      seqStep^[i] stConnA.seq = seqStep^[j] stConnA.seq → i = j)) :=
  ⟨rfl, rfl, by decide,
    sequence_wraparound colorsAll102030 0 stConnA rfl rfl (by decide)⟩

/-- C8: whenever a device is connected, `sendRegionColors` commits the
new 4-tuple as the stored last-sent regions unconditionally — with or
without a usable socket, and independently of the transmit outcome — so
the next delta is computed against the intended prior state. -/
theorem lastRegions_committed_unconditionally (colors : RegionColorsInput)
    (ts : Nat) (st : WiFiState) (hc : st.connectedDevice.isSome) :
    (sendRegionColorsStep colors ts st).1.lastRegions = regionsOf colors := by
  by_cases hs : st.udpSocket.isSome
  · rw [sendRegionColorsStep_some colors ts st hc hs]
  · rw [sendRegionColorsStep_noSocket colors ts st hc
      (Option.not_isSome_iff_eq_none.mp hs)]

/-- Witness for C8 at a connected state whose socket is gone: the
last-sent tuple is still committed. -/
theorem lastRegions_committed_unconditionally_witness :
    stConnANoSocket.connectedDevice.isSome ∧
    (sendRegionColorsStep colorsRightWhite 0 stConnANoSocket).1.lastRegions =
      regionsOf colorsRightWhite :=
  ⟨rfl, lastRegions_committed_unconditionally colorsRightWhite 0 stConnANoSocket rfl⟩

/-- C10: any input string that does not match an optional `#` followed
by exactly six hexadecimal digits is converted by the shared
`hexToRgbBytes` helper to `[0, 0, 0]`, so a malformed color value is
silently encoded on the wire as black (for the legacy single-color
packet of `sendColor`, as `[0, 0, 0, 0]`). -/
theorem malformed_hex_encodes_black (s : String) (h : ¬ specHexColorFormat s) :
    hexToRgbBytes s = [0, 0, 0] ∧ sendColorPacket s = [0, 0, 0, 0] := by
  have hrgb : hexToRgbBytes s = [0, 0, 0] := by
    by_contra hne
    apply h
    unfold hexToRgbBytes at hne
    revert hne
    split
    next r1 r2 g1 g2 b1 b2 heq =>
      split
      next hhex =>
        intro _
        refine ⟨[r1, r2, g1, g2, b1, b2], rfl, ?_, hexBody_cases _ _ heq⟩
        intro c hcmem
        simp only [Bool.and_eq_true] at hhex
        simp only [List.mem_cons, List.not_mem_nil, or_false] at hcmem
        rcases hcmem with rfl | rfl | rfl | rfl | rfl | rfl <;> tauto
      next hhex =>
        intro hne
        exact absurd rfl hne
    next =>
      intro hne
      exact absurd rfl hne
  refine ⟨hrgb, ?_⟩
  simp [sendColorPacket, hrgb]

/-- Witness for C10: the malformed input `xyz` is encoded as black. -/
theorem malformed_hex_encodes_black_witness :
    ¬ specHexColorFormat "xyz" ∧
      (hexToRgbBytes "xyz" = [0, 0, 0] ∧ sendColorPacket "xyz" = [0, 0, 0, 0]) := by
  have hlen : ("xyz".toList).length = 3 := rfl
  have hn : ¬ specHexColorFormat "xyz" := by
    rintro ⟨digits, hdl, -, hcase | hcase⟩
    · rw [hcase] at hlen
      omega
    · rw [hcase] at hlen
      simp only [List.length_cons] at hlen
      omega
  exact ⟨hn, malformed_hex_encodes_black "xyz" hn⟩

/-- C5 counterexample: the claim says connecting to `devB` while
connected to `devA` tears down A's session first, releasing its
transport endpoint. In the code the old socket is never closed:
starting from `stConnA` (connected to A over socket 0), connecting to B
over socket 1 leaves socket 0 open while socket 1 becomes the active
endpoint. -/
theorem connect_leaves_old_socket_open :
    (connectDevice devB 1 stConnA).udpSocket = some 1 ∧
      0 ∈ (connectDevice devB 1 stConnA).openSockets := by
  refine ⟨rfl, ?_⟩
  decide

/-- C5 amended: establishing a new connection always wins — there is no
busy/reject outcome, afterwards the new device's session is the single
active one (its socket stored, it the only device marked connected,
all others marked not-connected) — but the prior session's transport
endpoint is not released: the old socket remains open. -/
theorem connect_always_wins (device : WiFiDevice) (newSock oldSock : Nat)
    (st : WiFiState) (hold : st.udpSocket = some oldSock)
    (hopen : oldSock ∈ st.openSockets) :
    (connectDevice device newSock st).connectedDevice =
      some { device with isConnected := true } ∧
    (connectDevice device newSock st).udpSocket = some newSock ∧
    oldSock ∈ (connectDevice device newSock st).openSockets ∧
    ∀ d ∈ (connectDevice device newSock st).devices,
      (d.isConnected = true ↔ d.id = device.id) := by
  refine ⟨rfl, rfl, ?_, ?_⟩
  · simp only [connectDevice, List.mem_cons]
    exact Or.inr hopen
  · intro d hd
    simp only [connectDevice, List.mem_map] at hd
    obtain ⟨d0, hd0, rfl⟩ := hd
    by_cases he : d0.id = device.id
    · simp [he]
    · simp [he]

/-- Witness for the amended C5 at the concrete connected state. -/
theorem connect_always_wins_witness :
    stConnA.udpSocket = some 0 ∧ 0 ∈ stConnA.openSockets ∧
    ((connectDevice devB 1 stConnA).connectedDevice =
      some { devB with isConnected := true } ∧
    (connectDevice devB 1 stConnA).udpSocket = some 1 ∧
    0 ∈ (connectDevice devB 1 stConnA).openSockets ∧
    ∀ d ∈ (connectDevice devB 1 stConnA).devices,
      (d.isConnected = true ↔ d.id = devB.id)) :=
  ⟨rfl, by decide, connect_always_wins devB 1 0 stConnA rfl (by decide)⟩

/-- C6 counterexample: the claim says every successful connect resets
the sequence counter to 0 and the last-sent regions to the sentinel, so
the first frame after any connect is full. In the code neither ref is
touched by `connectDevice`: after streaming one frame on A's session and
reconnecting to B, the counter is 1, the baseline still holds the
streamed colors, and the first frame after the reconnect is a delta
frame (command byte 2). -/
theorem reconnect_is_not_fresh :
    reconnectState.seq = 1 ∧
    reconnectState.lastRegions = ["102030", "102030", "102030", "102030"] ∧
    (sendRegionColorsStep colorsRightWhite 0 reconnectState).2.map
      (fun f => f.getD 8 0) = some 2 :=
  ⟨rfl, rfl, rfl⟩

/-- C6 amended: `connectDevice` leaves the sequence counter and the
last-sent regions untouched; they are initialized exactly once at
provider creation (0 and the four-empty-string sentinel, which no real
color equals), so the first frame streamed from that initial sentinel
state with nonempty colors is a full update — but after a reconnect the
counter and delta baseline carry over from the prior session. -/
theorem connect_preserves_stream_state (device dev : WiFiDevice)
    (newSock sock : Nat) (st st0 : WiFiState) (colors : RegionColorsInput)
    (ts : Nat)
    (h1 : colors.top ≠ "") (h2 : colors.right ≠ "") (h3 : colors.bottom ≠ "")
    (h4 : colors.left ≠ "")
    (h5 : st0.lastRegions = ["", "", "", ""])
    (h6 : st0.connectedDevice = some dev) (h7 : st0.udpSocket = some sock) :
    (connectDevice device newSock st).seq = st.seq ∧
    (connectDevice device newSock st).lastRegions = st.lastRegions ∧
    initialState.seq = 0 ∧ initialState.lastRegions = ["", "", "", ""] ∧
    ∃ f rest, (sendRegionColorsStep colors ts st0).2 = some f ∧
      List.drop 8 f = 1 :: rest := by
  refine ⟨rfl, rfl, rfl, rfl, ?_⟩
  have hch : changedIndexes (regionsOf colors) st0.lastRegions = List.range 4 := by
    rw [h5]
    unfold changedIndexes
    have h4l : (regionsOf colors).length = 4 := rfl
    rw [h4l]
    apply List.filter_eq_self.mpr
    intro i hi
    fin_cases hi <;> simp [regionsOf, h1, h2, h3, h4]
  have hcs : st0.connectedDevice.isSome := by rw [h6]; rfl
  have hss : st0.udpSocket.isSome := by rw [h7]; rfl
  rw [sendRegionColorsStep_some colors ts st0 hcs hss]
  refine ⟨_, (regionsOf colors).flatMap hexToRgbBytes, rfl, ?_⟩
  rw [buildFrame_full _ _ _ _ (by rw [hch]; simp [regionsOf])]
  rfl

/-- Witness for the amended C6 at concrete states. -/
theorem connect_preserves_stream_state_witness :
    colorsAll102030.top ≠ "" ∧ colorsAll102030.right ≠ "" ∧
    colorsAll102030.bottom ≠ "" ∧ colorsAll102030.left ≠ "" ∧
    stConnA.lastRegions = ["", "", "", ""] ∧
    stConnA.connectedDevice = some { devA with isConnected := true } ∧
    stConnA.udpSocket = some 0 ∧
    ((connectDevice devB 1 reconnectState).seq = reconnectState.seq ∧
    (connectDevice devB 1 reconnectState).lastRegions = reconnectState.lastRegions ∧
    initialState.seq = 0 ∧ initialState.lastRegions = ["", "", "", ""] ∧
    ∃ f rest, (sendRegionColorsStep colorsAll102030 0 stConnA).2 = some f ∧
      List.drop 8 f = 1 :: rest) :=
  ⟨by decide, by decide, by decide, by decide, rfl, rfl, rfl,
    connect_preserves_stream_state devB { devA with isConnected := true } 1 0
      reconnectState stConnA colorsAll102030 0
      (by decide) (by decide) (by decide) (by decide) rfl rfl rfl⟩

/-- C7 counterexample: the claim says that after `stopScan` the
repeating discovery broadcast is cancelled and the transport endpoint
released. In the code `stopScan` only sets `isScanning` to false: from a
freshly started scan (socket 5, interval 6), after `stopScan` the
service reports Idle while the broadcast interval is still scheduled and
the discovery socket still open. -/
theorem stopScan_leaves_broadcast_running :
    (stopScan (startScan 5 6 initialState)).isScanning = false ∧
    (stopScan (startScan 5 6 initialState)).scanInterval = some 6 ∧
    (stopScan (startScan 5 6 initialState)).scanSocket = some 5 ∧
    5 ∈ (stopScan (startScan 5 6 initialState)).openSockets := by
  refine ⟨rfl, rfl, rfl, ?_⟩
  decide

/-- C7 amended: `stopScan` only clears the scanning flag, leaving the
repeating broadcast interval and the discovery socket untouched — so the
broadcast can still fire while the service reports Idle; only the
30-second hard timeout cancels the interval, closes the discovery
socket, and transitions to Idle. -/
theorem stopScan_only_clears_flag (st : WiFiState) (s : Nat)
    (hs : st.scanSocket = some s) :
    (stopScan st).isScanning = false ∧
    (stopScan st).scanInterval = st.scanInterval ∧
    (stopScan st).scanSocket = st.scanSocket ∧
    (stopScan st).openSockets = st.openSockets ∧
    (scanTimeoutFire st).isScanning = false ∧
    (scanTimeoutFire st).scanInterval = none ∧
    (scanTimeoutFire st).scanSocket = none ∧
    (scanTimeoutFire st).openSockets = st.openSockets.erase s := by
  refine ⟨rfl, rfl, rfl, rfl, rfl, rfl, rfl, ?_⟩
  simp [scanTimeoutFire, hs]

/-- Witness for the amended C7 at a freshly started scan. -/
theorem stopScan_only_clears_flag_witness :
    (startScan 5 6 initialState).scanSocket = some 5 ∧
    ((stopScan (startScan 5 6 initialState)).isScanning = false ∧
    (stopScan (startScan 5 6 initialState)).scanInterval =
      (startScan 5 6 initialState).scanInterval ∧
    (stopScan (startScan 5 6 initialState)).scanSocket =
      (startScan 5 6 initialState).scanSocket ∧
    (stopScan (startScan 5 6 initialState)).openSockets =
      (startScan 5 6 initialState).openSockets ∧
    (scanTimeoutFire (startScan 5 6 initialState)).isScanning = false ∧
    (scanTimeoutFire (startScan 5 6 initialState)).scanInterval = none ∧
    (scanTimeoutFire (startScan 5 6 initialState)).scanSocket = none ∧
    (scanTimeoutFire (startScan 5 6 initialState)).openSockets =
      (startScan 5 6 initialState).openSockets.erase 5) :=
  ⟨rfl, stopScan_only_clears_flag (startScan 5 6 initialState) 5 rfl⟩

/-- C9: the discovery registry is keyed by sender address: an accepted
response whose sender address is already present refreshes only that
entry's `rssi` (id, name, port, connected flag and position untouched,
registry addresses and order unchanged); an unknown address appends a
new device at the end. Hence addresses stay distinct, the entry at the
sender's address reflects the latest response's rssi, and first-seen
order is preserved. -/
theorem discovery_registry_dedup (resp : DiscoveryResponse) (addr : String)
    (devices : List WiFiDevice)
    (ht : resp.type = "ESP_LED_DEVICE")
    (hnd : (devices.map WiFiDevice.ipAddress).Nodup) :
    ((handleDiscoveryMessage resp addr devices).map WiFiDevice.ipAddress).Nodup ∧
    (∀ d ∈ handleDiscoveryMessage resp addr devices,
      d.ipAddress = addr → d.rssi = resp.rssi) ∧
    (addr ∈ devices.map WiFiDevice.ipAddress →
      List.Forall₂ (fun d d' =>
        d'.id = d.id ∧ d'.name = d.name ∧ d'.ipAddress = d.ipAddress ∧
        d'.port = d.port ∧ d'.isConnected = d.isConnected ∧
        (d.ipAddress ≠ addr → d'.rssi = d.rssi))
        devices (handleDiscoveryMessage resp addr devices)) ∧
    (addr ∉ devices.map WiFiDevice.ipAddress →
      handleDiscoveryMessage resp addr devices =
        devices ++ [mkDiscoveredDevice resp addr]) := by
  rw [handleDiscoveryMessage, if_pos ht]
  refine ⟨upsertByAddress_nodup _ _ hnd, ?_, ?_, ?_⟩
  · intro d hd hip
    exact upsertByAddress_rssi_latest (mkDiscoveredDevice resp addr) devices hnd
      d hd hip
  · intro hmem
    exact upsertByAddress_forall₂ (mkDiscoveredDevice resp addr) devices hmem
  · intro hmem
    exact upsertByAddress_of_not_mem (mkDiscoveredDevice resp addr) devices hmem

/-- Witness for C9: a repeat response from `devA`'s address against a
registry already holding both devices. -/
theorem discovery_registry_dedup_witness :
    respFromA.type = "ESP_LED_DEVICE" ∧
    (([devA, devB].map WiFiDevice.ipAddress).Nodup) ∧
    (((handleDiscoveryMessage respFromA "192.168.1.50" [devA, devB]).map
        WiFiDevice.ipAddress).Nodup ∧
    (∀ d ∈ handleDiscoveryMessage respFromA "192.168.1.50" [devA, devB],
      d.ipAddress = "192.168.1.50" → d.rssi = respFromA.rssi) ∧
    ("192.168.1.50" ∈ [devA, devB].map WiFiDevice.ipAddress →
      List.Forall₂ (fun d d' =>
        d'.id = d.id ∧ d'.name = d.name ∧ d'.ipAddress = d.ipAddress ∧
        d'.port = d.port ∧ d'.isConnected = d.isConnected ∧
        (d.ipAddress ≠ "192.168.1.50" → d'.rssi = d.rssi))
        [devA, devB] (handleDiscoveryMessage respFromA "192.168.1.50" [devA, devB])) ∧
    ("192.168.1.50" ∉ [devA, devB].map WiFiDevice.ipAddress →
      handleDiscoveryMessage respFromA "192.168.1.50" [devA, devB] =
        [devA, devB] ++ [mkDiscoveredDevice respFromA "192.168.1.50"])) :=
  ⟨rfl, by decide,
    discovery_registry_dedup respFromA "192.168.1.50" [devA, devB] rfl (by decide)⟩

end Ledambight
